import Mathlib

/-
Verification of the natural-language specification of sort_in_threads
(src/sort_in_threads.py) against a shallow embedding of its code.

The filesystem is modelled as data passed explicitly:
  * an existence oracle `String → Bool` where only `os.path.exists` is consulted,
  * a list of existing file paths where files are moved (`move_files`),
  * a snapshot of one directory's entries where a directory is scanned
    (`prepare_folder`).
Filesystem mutations performed by the code are recorded as an event trace.
Paths are plain strings; `os.path.join a b` is modelled as `a ++ "/" ++ b`,
which is exact for the arguments the program builds (non-empty directory
prefixes without trailing separator, relative component without leading
separator).
-/

namespace SortInThreads

/-- Model of `os.path.join` for the two-argument calls the program makes. -/
def osJoin (a b : String) : String := a ++ "/" ++ b

/-- Index of the last occurrence of `c` in the list, if any. -/
def lastIdxOf (c : Char) : List Char → Option Nat
  | [] => none
  | d :: rest =>
    match lastIdxOf c rest with
    | some j => some (j + 1)
    | none => if d = c then some 0 else none

/-- Model of `os.path.splitext`: split at the last dot, except that a name
consisting of leading dots only (e.g. `.hidden`) has no extension. The
returned extension includes its leading dot. -/
def pySplitext (s : String) : String × String :=
  match lastIdxOf '.' s.data with
  | none => (s, "")
  | some j =>
    if (s.data.take j).any (fun c => c ≠ '.') then
      (String.mk (s.data.take j), String.mk (s.data.drop j))
    else (s, "")

/-- Drop trailing `/` characters, as `str.rstrip(sep)` does in `os.path.dirname`. -/
def rstripSlash (l : List Char) : List Char :=
  (l.reverse.dropWhile (fun c => c = '/')).reverse

/-- Model of `os.path.dirname`: everything before the final separator; a head
consisting solely of separators is kept, otherwise trailing separators are
stripped; a name without separator has dirname `""`. -/
def os_path_dirname (p : String) : String :=
  match lastIdxOf '/' p.data with
  | none => ""
  | some j =>
    let head := p.data.take (j + 1)
    if head.all (fun c => c = '/') then String.mk head else String.mk (rstripSlash head)

/-- Model of `os.path.exists` over an existence oracle: the empty path never
exists (as in Python, where `os.stat("")` fails), otherwise the oracle —
standing for the state of the filesystem — answers. -/
def os_path_exists (fs : String → Bool) (p : String) : Bool :=
  if p = "" then false else fs p

/-- ASCII word characters: letters, digits and underscore. Used to state the
spec's claim about the Normalizer's output alphabet. -/
def asciiWordChar (c : Char) : Bool :=
  ('a' ≤ c && c ≤ 'z') || ('A' ≤ c && c ≤ 'Z') || ('0' ≤ c && c ≤ '9') || c = '_'

/-- Word character per the Python regex `\w` with its default Unicode
semantics, which the source's `re.sub(r"\W+", "_", ...)` uses: ASCII letters,
digits, underscore, and non-ASCII alphanumerics. Non-ASCII codepoints are
modelled as word characters; this is exact on every letter the program's
diacritic table and the claims mention (Unicode letters all match `\w`). -/
def pyWordChar (c : Char) : Bool :=
  asciiWordChar c || 0x80 ≤ c.val

/-- The diacritic substitution performed by `name.translate(polish_chars)`,
one character at a time. The source dict lists `ord("Ż")` twice with the same
value `"Z"` (a duplicate key, so a single mapping), maps `"Ś"` to `"Ś"`
(itself) and has no entry for `"Ź"`; this is reproduced exactly. -/
def polishTranslate (c : Char) : Char :=
  if c = 'ą' then 'a'
  else if c = 'Ą' then 'A'
  else if c = 'ć' then 'c'
  else if c = 'Ć' then 'C'
  else if c = 'ę' then 'e'
  else if c = 'Ę' then 'E'
  else if c = 'ł' then 'l'
  else if c = 'Ł' then 'L'
  else if c = 'ń' then 'n'
  else if c = 'Ń' then 'N'
  else if c = 'ó' then 'o'
  else if c = 'Ó' then 'O'
  else if c = 'ś' then 's'
  else if c = 'Ś' then 'Ś'
  else if c = 'ź' then 'z'
  else if c = 'ż' then 'z'
  else if c = 'Ż' then 'Z'
  else c

/-- The characters the translation table can produce. -/
def polishTargets : List Char :=
  ['a', 'A', 'c', 'C', 'e', 'E', 'l', 'L', 'n', 'N', 'o', 'O', 's', 'Ś', 'z', 'Z']

/-- The distinct keys of the translation table. -/
def polishKeys : List Char :=
  ['ą', 'Ą', 'ć', 'Ć', 'ę', 'Ę', 'ł', 'Ł', 'ń', 'Ń', 'ó', 'Ó', 'ś', 'Ś', 'ź', 'ż', 'Ż']

/-- Model of `re.sub(r"\W+", "_", s)`: replace every maximal run of non-word
characters by a single underscore. The Boolean argument records whether the
previous character belonged to a non-word run whose underscore was already
emitted. -/
def squashAux : Bool → List Char → List Char
  | _, [] => []
  | prevNW, c :: cs =>
    if pyWordChar c then c :: squashAux false cs
    else
      match prevNW with
      | true => squashAux true cs
      | false => '_' :: squashAux true cs

/-- Model of `normalize` (src/sort_in_threads.py lines 224-258): apply the
diacritic substitution table, then replace every maximal run of `\W`
characters with one underscore. -/
def normalize (name : String) : String :=
  String.mk (squashAux false (name.data.map polishTranslate))

/-- The loop `for i in range(1, 1000000)` of `set_dest_path`: return the first
index `i` (starting at `i0`, at most `fuel` attempts) for which
`f"{path}{file_name}_{i}{ext}"` does not exist. Note the candidate tested is
the plain string concatenation of the source's f-string — the directory path
and the file name are glued together without a path separator, exactly as on
source line 278. -/
def findFree (ex : String → Bool) (path file_name ext : String) : Nat → Nat → Option Nat
  | _, 0 => none
  | i, fuel + 1 =>
    if ex (path ++ file_name ++ "_" ++ toString i ++ ext) then
      findFree ex path file_name ext (i + 1) fuel
    else some i

/-- Model of `set_dest_path` (src/sort_in_threads.py lines 261-282) over an
existence oracle `ex` standing for `os.path.exists`: if `path/file_name+ext`
exists, append `_i` to the name for the first `i` in `[1, 1000000)` whose
f-string candidate does not exist (no suffix if the loop exhausts), then
return `os.path.join(path, file_name + ext)`. -/
def set_dest_path (ex : String → Bool) (path file_name : String) (ext : String) : String :=
  let full_file_name := file_name ++ ext
  let file_name1 :=
    if ex (osJoin path full_file_name) then
      match findFree ex path file_name ext 1 999999 with
      | some i => file_name ++ "_" ++ toString i
      | none => file_name
    else file_name
  osJoin path (file_name1 ++ ext)

/-- The six classification buckets of `move_files`. -/
inductive Category
  | images
  | video
  | documents
  | audio
  | archives
  | unsorted
deriving DecidableEq

/-- The directory name attached to each category, as used in the source's
string-valued `file_type`. -/
def catName : Category → String
  | Category.images => "images"
  | Category.video => "video"
  | Category.documents => "documents"
  | Category.audio => "audio"
  | Category.archives => "archives"
  | Category.unsorted => "unsorted"

/-- The `match ext` statement of `move_files` (src/sort_in_threads.py lines
153-170): case-sensitive exact match of the extension, leading dot included. -/
def classify (ext : String) : Category :=
  if ext = ".jpeg" ∨ ext = ".png" ∨ ext = ".jpg" ∨ ext = ".svg" then Category.images
  else if ext = ".avi" ∨ ext = ".mp4" ∨ ext = ".mov" ∨ ext = ".mkv" then Category.video
  else if ext = ".doc" ∨ ext = ".docx" ∨ ext = ".txt" ∨ ext = ".pdf" ∨ ext = ".xlsx" ∨ ext = ".pptx" then
    Category.documents
  else if ext = ".mp3" ∨ ext = ".ogg" ∨ ext = ".wav" ∨ ext = ".amr" then Category.audio
  else if ext = ".zip" ∨ ext = ".gz" ∨ ext = ".tar" then Category.archives
  else Category.unsorted

/-- All extensions appearing in the classification table. -/
def knownExts : List String :=
  [".jpeg", ".png", ".jpg", ".svg", ".avi", ".mp4", ".mov", ".mkv",
   ".doc", ".docx", ".txt", ".pdf", ".xlsx", ".pptx",
   ".mp3", ".ogg", ".wav", ".amr", ".zip", ".gz", ".tar"]

/-- Filesystem mutations, recorded as a trace in the order the code performs
them. `unpack src destDir` is `shutil.unpack_archive(src, destDir)`;
`renames src dest` is a successful `os.renames(src, dest)`; `rmdir p` is
`os.rmdir(p)`. -/
inductive FsEvent
  | rmdir (p : String)
  | renames (src dest : String)
  | unpack (src destDir : String)
deriving DecidableEq

/-- `os.path.exists` over the list of existing paths used by the `move_files`
model. -/
def fsContains (l : List String) (p : String) : Bool := l.contains p

/-- State threaded through the `for file in files` loop of `move_files`:
the set of existing paths (files are moved within it), the two accumulator
dictionaries `extensions` (a set per category, modelled as a duplicate-free
list) and `paths` (a record list per category), the event trace, and the
messages printed on a caught `FileExistsError`. -/
structure SortState where
  fs : List String
  extensions : Category → List String
  pathsRec : Category → List String
  events : List FsEvent
  messages : List String

/-- One iteration of the `for file in files` loop of `move_files`
(src/sort_in_threads.py lines 149-196): split and normalize the name,
classify the extension; archives are unpacked (from their original location)
into `path/archives/<normalized base>` as part of the `match`; categorized
files are then moved to the path chosen by `set_dest_path` — `os.renames`
raising `FileExistsError` when the destination exists, which the code catches
with `continue`, skipping the record keeping; finally the record and the
extension set of the file's category are updated. Unsorted files are not
moved; their record is `os.path.join(path, file_type, file.name)` with
`file_type = "unsorted"`, exactly as on source line 187. -/
def processFile (path : String) (st : SortState) (fname : String) : SortState :=
  let be := pySplitext fname
  let file_name := normalize be.1
  let ext := be.2
  let file_type := classify ext
  let src := osJoin path fname
  let st1 :=
    if file_type = Category.archives then
      { st with events := st.events ++ [FsEvent.unpack src (osJoin (osJoin path (catName file_type)) file_name)] }
    else st
  if file_type = Category.unsorted then
    { st1 with
      pathsRec := fun c =>
        if c = file_type then st1.pathsRec file_type ++ [osJoin (osJoin path (catName file_type)) fname]
        else st1.pathsRec c,
      extensions := fun c =>
        if c = file_type then
          (if ext ∈ st1.extensions file_type then st1.extensions file_type
           else st1.extensions file_type ++ [ext])
        else st1.extensions c }
  else
    let dest_path := set_dest_path (fun p => fsContains st1.fs p) (osJoin path (catName file_type)) file_name ext
    if fsContains st1.fs dest_path then
      { st1 with
        messages := st1.messages ++
          ["File " ++ file_name ++ ext ++
           " has not been copied, because too many files with that name already exist in the destination directory."] }
    else
      { st1 with
        fs := st1.fs.erase src ++ [dest_path],
        events := st1.events ++ [FsEvent.renames src dest_path],
        pathsRec := fun c =>
          if c = file_type then
            st1.pathsRec file_type ++
              [osJoin (osJoin path (catName file_type)) fname ++ " has moved to: " ++ dest_path]
          else st1.pathsRec c,
        extensions := fun c =>
          if c = file_type then
            (if ext ∈ st1.extensions file_type then st1.extensions file_type
             else st1.extensions file_type ++ [ext])
          else st1.extensions c }

/-- Model of `move_files` (src/sort_in_threads.py lines 97-198) for the
directory `path` whose scanned file names are `files`, over the initial set
`fs0` of existing paths: fold the loop body over the files, starting from
empty accumulators (the source initialises every category key to an empty
set / empty list). -/
def move_files (fs0 : List String) (path : String) (files : List String) : SortState :=
  files.foldl (processFile path) (SortState.mk fs0 (fun _ => []) (fun _ => []) [] [])

/-- One entry of the `os.scandir(path)` snapshot taken by `prepare_folder`:
its name, whether it is a directory, and — for directories — the
`os.listdir` listing used by the empty-directory check. -/
structure DirEntry where
  name : String
  isDir : Bool
  listing : List String
deriving DecidableEq

/-- Accumulators of `prepare_folder`: the `subdirectories` list of paths, the
`files` list of entries, and the trace of filesystem events. -/
structure PrepState where
  subdirectories : List String
  files : List DirEntry
  events : List FsEvent
deriving DecidableEq

/-- The five directory names excluded from sorting, in source order. -/
def excludedNames : List String := ["images", "video", "documents", "audio", "archives"]

/-- The `for item in folder_items` loop of `prepare_folder`
(src/sort_in_threads.py lines 55-91). For a directory entry: an empty
directory is removed with `os.rmdir` but — the source has no `continue`
there — processing of the entry falls through; entries named one of the five
excluded names are neither renamed nor appended to `subdirectories`; for the
rest the name is normalized and, when the normalized name differs, the source
calls `set_dest_path(os.path.join(path, dir_name))` with one argument if a
previously seen file bears the new name, and otherwise
`os.renames(os.path.join(path, item.name, dir_path))` with one argument —
both calls lack a required positional argument, so Python raises `TypeError`
(uncaught: the `except` clause only catches `FileExistsError`), modelled as
`Except.error`. Non-directory entries are appended to `files`. -/
def prepare_items (path : String) : PrepState → List DirEntry → Except String PrepState
  | st, [] => Except.ok st
  | st, item :: rest =>
    if item.isDir then
      let st1 :=
        if item.listing.length = 0 then
          { st with events := st.events ++ [FsEvent.rmdir (osJoin path item.name)] }
        else st
      if item.name ∈ excludedNames then prepare_items path st1 rest
      else
        let dir_name := normalize item.name
        let dir_path := osJoin path dir_name
        if dir_name ≠ item.name then
          if st1.files.any (fun entry => dir_name = entry.name) then
            Except.error "TypeError: set_dest_path missing 1 required positional argument"
          else
            Except.error "TypeError: renames missing 1 required positional argument"
        else prepare_items path { st1 with subdirectories := st1.subdirectories ++ [dir_path] } rest
    else prepare_items path { st with files := st.files ++ [item] } rest

/-- Model of `prepare_folder` (src/sort_in_threads.py lines 40-94) for the
directory `path` whose `os.scandir` snapshot is `folder_items`. -/
def prepare_folder (path : String) (folder_items : List DirEntry) : Except String PrepState :=
  prepare_items path (PrepState.mk [] [] []) folder_items

/-- Model of `get_path` (src/sort_in_threads.py lines 21-37) over the
command-line argument vector (`argv.headD "" = sys.argv[0]`) and two oracles
standing for `os.path.exists` and `os.path.isdir`. `Except.error` models
`sys.exit(message)`, a non-zero-status termination printing the message. -/
def get_path (argv : List String) (fs_exists fs_isdir : String → Bool) : Except String String :=
  let exit_help :=
    "Stars program with command like: " ++ argv.headD "" ++
      " /user/folder_to_sort/ (path to folder you want to sort)."
  if argv.length < 2 then Except.error ("Too few command-line arguments.\n" ++ exit_help)
  else if argv.length > 2 then Except.error ("Too many command line arguments.\n" ++ exit_help)
  else
    let folder_path := argv.getD 1 ""
    if os_path_exists fs_exists (os_path_dirname folder_path) && fs_isdir folder_path then
      Except.ok folder_path
    else Except.error (folder_path ++ " is not a proper folder path.\n" ++ exit_help)

/-! ## Helper lemmas about the Normalizer -/

theorem squashAux_mem (l : List Char) :
    ∀ (b : Bool), ∀ c ∈ squashAux b l, pyWordChar c = true := by
  induction l with
  | nil => intro b c hc; simp [squashAux] at hc
  | cons d rest ih =>
    intro b c hc
    unfold squashAux at hc
    by_cases hw : pyWordChar d
    · rw [if_pos hw] at hc
      rcases List.mem_cons.mp hc with h | h
      · rw [h]; exact hw
      · exact ih false c h
    · rw [if_neg hw] at hc
      cases b with
      | true => exact ih true c hc
      | false =>
        rcases List.mem_cons.mp hc with h | h
        · rw [h]; decide
        · exact ih true c h

theorem squashAux_subset (l : List Char) :
    ∀ (b : Bool), ∀ c ∈ squashAux b l, c ∈ l ∨ c = '_' := by
  induction l with
  | nil => intro b c hc; simp [squashAux] at hc
  | cons d rest ih =>
    intro b c hc
    unfold squashAux at hc
    by_cases hw : pyWordChar d
    · rw [if_pos hw] at hc
      rcases List.mem_cons.mp hc with h | h
      · exact Or.inl (h ▸ List.mem_cons_self d rest)
      · rcases ih false c h with h2 | h2
        · exact Or.inl (List.mem_cons_of_mem d h2)
        · exact Or.inr h2
    · rw [if_neg hw] at hc
      cases b with
      | true =>
        rcases ih true c hc with h2 | h2
        · exact Or.inl (List.mem_cons_of_mem d h2)
        · exact Or.inr h2
      | false =>
        rcases List.mem_cons.mp hc with h | h
        · exact Or.inr h
        · rcases ih true c h with h2 | h2
          · exact Or.inl (List.mem_cons_of_mem d h2)
          · exact Or.inr h2

theorem squashAux_eq_self (l : List Char) (h : ∀ c ∈ l, pyWordChar c = true) :
    squashAux false l = l := by
  induction l with
  | nil => rfl
  | cons d rest ih =>
    have hd : pyWordChar d = true := h d (List.mem_cons_self d rest)
    unfold squashAux
    rw [if_pos hd, ih (fun c hc => h c (List.mem_cons_of_mem d hc))]

theorem map_polishTranslate_eq_self (l : List Char) (h : ∀ c ∈ l, polishTranslate c = c) :
    l.map polishTranslate = l := by
  induction l with
  | nil => rfl
  | cons d rest ih =>
    rw [List.map_cons, h d (List.mem_cons_self d rest),
      ih (fun c hc => h c (List.mem_cons_of_mem d hc))]

theorem polishTranslate_key_mem : ∀ c ∈ polishKeys, polishTranslate c ∈ polishTargets := by
  decide

theorem polishTranslate_target_fixed : ∀ d ∈ polishTargets, polishTranslate d = d := by
  decide

theorem polishKeys_not_ascii : ∀ c ∈ polishKeys, asciiWordChar c = false := by
  decide

theorem polishTranslate_not_key (c : Char) (h : c ∉ polishKeys) : polishTranslate c = c := by
  have h1 : ¬ c = 'ą' := fun hh => h (by rw [hh]; decide)
  have h2 : ¬ c = 'Ą' := fun hh => h (by rw [hh]; decide)
  have h3 : ¬ c = 'ć' := fun hh => h (by rw [hh]; decide)
  have h4 : ¬ c = 'Ć' := fun hh => h (by rw [hh]; decide)
  have h5 : ¬ c = 'ę' := fun hh => h (by rw [hh]; decide)
  have h6 : ¬ c = 'Ę' := fun hh => h (by rw [hh]; decide)
  have h7 : ¬ c = 'ł' := fun hh => h (by rw [hh]; decide)
  have h8 : ¬ c = 'Ł' := fun hh => h (by rw [hh]; decide)
  have h9 : ¬ c = 'ń' := fun hh => h (by rw [hh]; decide)
  have h10 : ¬ c = 'Ń' := fun hh => h (by rw [hh]; decide)
  have h11 : ¬ c = 'ó' := fun hh => h (by rw [hh]; decide)
  have h12 : ¬ c = 'Ó' := fun hh => h (by rw [hh]; decide)
  have h13 : ¬ c = 'ś' := fun hh => h (by rw [hh]; decide)
  have h14 : ¬ c = 'Ś' := fun hh => h (by rw [hh]; decide)
  have h15 : ¬ c = 'ź' := fun hh => h (by rw [hh]; decide)
  have h16 : ¬ c = 'ż' := fun hh => h (by rw [hh]; decide)
  have h17 : ¬ c = 'Ż' := fun hh => h (by rw [hh]; decide)
  unfold polishTranslate
  rw [if_neg h1, if_neg h2, if_neg h3, if_neg h4, if_neg h5, if_neg h6, if_neg h7,
    if_neg h8, if_neg h9, if_neg h10, if_neg h11, if_neg h12, if_neg h13, if_neg h14,
    if_neg h15, if_neg h16, if_neg h17]

theorem polishTranslate_cases (c : Char) :
    polishTranslate c = c ∨ polishTranslate c ∈ polishTargets := by
  by_cases hk : c ∈ polishKeys
  · exact Or.inr (polishTranslate_key_mem c hk)
  · exact Or.inl (polishTranslate_not_key c hk)

theorem polishTranslate_idem (c : Char) :
    polishTranslate (polishTranslate c) = polishTranslate c := by
  rcases polishTranslate_cases c with h | h
  · rw [h]; exact h
  · exact polishTranslate_target_fixed _ h

theorem polishTranslate_ascii (c : Char) (h : asciiWordChar c = true) :
    polishTranslate c = c := by
  by_cases hk : c ∈ polishKeys
  · rw [polishKeys_not_ascii c hk] at h
    exact absurd h (by simp)
  · exact polishTranslate_not_key c hk

theorem asciiWordChar_pyWordChar (c : Char) (h : asciiWordChar c = true) :
    pyWordChar c = true := by
  unfold pyWordChar
  rw [h, Bool.true_or]

theorem normalize_data_word (s : String) :
    ∀ c ∈ (normalize s).data, pyWordChar c = true :=
  fun c hc => squashAux_mem (s.data.map polishTranslate) false c hc

/-! ## Helper lemmas about the Directory Preparer -/

theorem prepare_items_excluded (path : String) (st : PrepState) (rest : List DirEntry)
    (name : String) (listing : List String)
    (h1 : name ∈ excludedNames) (h2 : listing ≠ []) :
    prepare_items path st (DirEntry.mk name true listing :: rest) = prepare_items path st rest := by
  have hlen : ¬ listing.length = 0 := fun hl => h2 (List.length_eq_zero.mp hl)
  conv_lhs => rw [prepare_items]
  simp [hlen, h1]

/-! ## Helper lemmas about the File Sorter -/

theorem set_dest_path_under (ex : String → Bool) (p n e : String) :
    ∃ m, set_dest_path ex p n e = osJoin p m := by
  unfold set_dest_path
  exact ⟨_, rfl⟩

theorem classify_default (ext : String) (h : ext ∉ knownExts) :
    classify ext = Category.unsorted := by
  unfold classify
  split_ifs with h1 h2 h3 h4 h5
  · rcases h1 with h1 | h1 | h1 | h1 <;> exact absurd (show ext ∈ knownExts by rw [h1]; decide) h
  · rcases h2 with h2 | h2 | h2 | h2 <;> exact absurd (show ext ∈ knownExts by rw [h2]; decide) h
  · rcases h3 with h3 | h3 | h3 | h3 | h3 | h3 <;>
      exact absurd (show ext ∈ knownExts by rw [h3]; decide) h
  · rcases h4 with h4 | h4 | h4 | h4 <;> exact absurd (show ext ∈ knownExts by rw [h4]; decide) h
  · rcases h5 with h5 | h5 | h5 <;> exact absurd (show ext ∈ knownExts by rw [h5]; decide) h
  · rfl

theorem processFile_unsorted (path : String) (st : SortState) (fname : String)
    (h : classify (pySplitext fname).2 = Category.unsorted) :
    (processFile path st fname).fs = st.fs ∧ (processFile path st fname).events = st.events := by
  constructor <;> simp [processFile, h]

theorem processFile_moved (path : String) (st : SortState) (fname : String)
    (hne : classify (pySplitext fname).2 ≠ Category.unsorted)
    (hc : fsContains st.fs (set_dest_path (fun p => fsContains st.fs p)
        (osJoin path (catName (classify (pySplitext fname).2)))
        (normalize (pySplitext fname).1) (pySplitext fname).2) = false) :
    (processFile path st fname).fs =
      st.fs.erase (osJoin path fname) ++
        [set_dest_path (fun p => fsContains st.fs p)
          (osJoin path (catName (classify (pySplitext fname).2)))
          (normalize (pySplitext fname).1) (pySplitext fname).2] := by
  rcases hcat : classify (pySplitext fname).2 with _ | _ | _ | _ | _ | _ <;>
    first
      | exact absurd hcat hne
      | (rw [hcat] at hc; simp [processFile, hcat, hc])

theorem processFile_unsorted_records (path : String) (st : SortState) (fname : String)
    (h : classify (pySplitext fname).2 = Category.unsorted) :
    (processFile path st fname).pathsRec Category.unsorted =
      st.pathsRec Category.unsorted ++ [osJoin (osJoin path "unsorted") fname] ∧
    (processFile path st fname).extensions Category.unsorted =
      (if (pySplitext fname).2 ∈ st.extensions Category.unsorted then st.extensions Category.unsorted
       else st.extensions Category.unsorted ++ [(pySplitext fname).2]) := by
  constructor <;> simp [processFile, h, catName]

theorem processFile_moved_records (path : String) (st : SortState) (fname : String)
    (hne : classify (pySplitext fname).2 ≠ Category.unsorted)
    (hc : fsContains st.fs (set_dest_path (fun p => fsContains st.fs p)
        (osJoin path (catName (classify (pySplitext fname).2)))
        (normalize (pySplitext fname).1) (pySplitext fname).2) = false) :
    (processFile path st fname).pathsRec (classify (pySplitext fname).2) =
      st.pathsRec (classify (pySplitext fname).2) ++
        [osJoin (osJoin path (catName (classify (pySplitext fname).2))) fname ++ " has moved to: " ++
          set_dest_path (fun p => fsContains st.fs p)
            (osJoin path (catName (classify (pySplitext fname).2)))
            (normalize (pySplitext fname).1) (pySplitext fname).2] ∧
    (processFile path st fname).extensions (classify (pySplitext fname).2) =
      (if (pySplitext fname).2 ∈ st.extensions (classify (pySplitext fname).2) then
        st.extensions (classify (pySplitext fname).2)
       else st.extensions (classify (pySplitext fname).2) ++ [(pySplitext fname).2]) := by
  rcases hcat : classify (pySplitext fname).2 with _ | _ | _ | _ | _ | _ <;>
    first
      | exact absurd hcat hne
      | (rw [hcat] at hc; constructor <;> simp [processFile, hcat, hc])

/-! ## Helper lemmas about the CLI argument check -/

theorem lastIdxOf_eq_none (c : Char) (l : List Char) (h : ∀ d ∈ l, d ≠ c) :
    lastIdxOf c l = none := by
  induction l with
  | nil => rfl
  | cons d rest ih =>
    unfold lastIdxOf
    rw [ih (fun x hx => h x (List.mem_cons_of_mem d hx))]
    exact if_neg (h d (List.mem_cons_self d rest))

theorem os_path_dirname_no_sep (p : String) (h : ∀ c ∈ p.data, c ≠ '/') :
    os_path_dirname p = "" := by
  unfold os_path_dirname
  rw [lastIdxOf_eq_none '/' p.data h]

/-! ## Claim theorems -/

/-- Claim C1 (code bug): the collision-avoidance loop of `set_dest_path`
tests the existence of `f"{path}{file_name}_{i}{ext}"` — the directory and
the candidate name concatenated without a path separator (source line 278,
unlike the `os.path.join` used on lines 275 and 282) — so with `d/f.txt` and
`d/f_1.txt` both existing, the call `set_dest_path("d", "f", ".txt")` probes
the unrelated path `df_1.txt`, finds it free, and returns `d/f_1.txt`, a path
that already exists, violating the claimed invariant. The third conjunct
shows the collision-free branch does behave as claimed. -/
theorem c1_set_dest_path_returns_existing_path :
    set_dest_path (fun p => ["d/f.txt", "d/f_1.txt"].contains p) "d" "f" ".txt" = "d/f_1.txt" ∧
    (["d/f.txt", "d/f_1.txt"].contains "d/f_1.txt") = true ∧
    set_dest_path (fun p => ["d/g.txt"].contains p) "d" "f" ".txt" = "d/f.txt" :=
  ⟨rfl, rfl, rfl⟩

/-- Claim C2 (code bug): an empty subdirectory is deleted (`os.rmdir`), but
the loop has no `continue` after the deletion, so the entry still falls
through to the normalize step and — its name being unchanged by `normalize`
and not a category name — is appended to the returned `subdirectories` list,
which drives the subsequent traversal. The claim says it is skipped from all
further processing. -/
theorem c2_empty_dir_deleted_but_still_traversed :
    prepare_folder "p" [DirEntry.mk "old_empty" true []] =
      Except.ok (PrepState.mk ["p/old_empty"] [] [FsEvent.rmdir "p/old_empty"]) ∧
    "p/old_empty" ∈ ["p/old_empty"] :=
  ⟨rfl, by decide⟩

/-- Claim C3, counterexample: a non-empty subdirectory named `documents` (a
category name) is NOT included in the returned subdirectory list — the
`subdirectories.append` on source line 88 sits inside the
`if not item.name in [...]` block — so the Tree Walker does not recurse into
it, contradicting the claim that it is returned like any other directory. -/
theorem c3_category_dir_not_in_subdirectories :
    prepare_folder "p" [DirEntry.mk "documents" true ["f.txt"]] =
      Except.ok (PrepState.mk [] [] []) :=
  rfl

/-- Claim C3 (amended): a non-empty subdirectory whose name is one of the
five fixed category names is excluded from the normalize/rename step AND
from the returned subdirectory list: `prepare_folder` treats the entry as if
it were absent, so the Tree Walker does not recurse into it. -/
theorem c3_category_dir_skipped_entirely (path : String) (st : PrepState)
    (rest : List DirEntry) (name : String) (listing : List String)
    (h1 : name ∈ excludedNames) (h2 : listing ≠ []) :
    prepare_items path st (DirEntry.mk name true listing :: rest) = prepare_items path st rest :=
  prepare_items_excluded path st rest name listing h1 h2

/-- Witness for C3 (amended): the `documents` entry is dropped from the
scan of a concrete snapshot. -/
theorem c3_category_dir_skipped_entirely_witness :
    prepare_items "p" (PrepState.mk [] [] []) [DirEntry.mk "documents" true ["x"]] =
      prepare_items "p" (PrepState.mk [] [] []) [] :=
  c3_category_dir_skipped_entirely "p" (PrepState.mk [] [] []) [] "documents" ["x"]
    (by decide) (by decide)

/-- Claim C4 (code bug): the source's rename call is
`os.renames(os.path.join(path, item.name, dir_path))` — a single argument —
so whenever a subdirectory's normalized name differs from its original name
Python raises `TypeError` (the `except FileExistsError` clause does not
catch it) and the run aborts; no directory is ever moved and the claimed
non-fatal failure handling is unreachable. Evaluated at a directory
containing the subdirectory `my docs` (normalized: `my_docs`). -/
theorem c4_dir_rename_raises_type_error :
    prepare_folder "p" [DirEntry.mk "my docs" true ["x"]] =
      Except.error "TypeError: renames missing 1 required positional argument" :=
  rfl

/-- Claim C5, counterexample: the claim asserts the output of `normalize`
contains only ASCII letters, digits, and underscore; but `normalize "Ś"`
returns `"Ś"` unchanged (the translation table maps `Ś` to itself, and the
Unicode-semantics `\W` of `re.sub` does not match the letter `Ś`), and `Ś`
is not an ASCII word character. -/
theorem c5_normalize_output_not_ascii_only :
    normalize "Ś" = "Ś" ∧ ¬ (∀ c ∈ (normalize "Ś").data, asciiWordChar c = true) := by
  constructor
  · rfl
  · decide

/-- Claim C5 (amended): the output of `normalize` contains only word
characters in the sense of the Python regex `\w` with Unicode semantics —
ASCII letters, digits, underscore, and non-ASCII word characters, which pass
through unchanged unless translated by the diacritic table; every maximal
run of non-word characters is replaced by a single underscore; and an input
already containing only ASCII letters, digits and underscore is returned
unchanged. -/
theorem c5_normalize_word_chars_only :
    (∀ s : String, ∀ c ∈ (normalize s).data, pyWordChar c = true) ∧
    (∀ s : String, (∀ c ∈ s.data, asciiWordChar c = true) → normalize s = s) := by
  constructor
  · exact normalize_data_word
  · intro s h
    unfold normalize
    rw [map_polishTranslate_eq_self s.data (fun c hc => polishTranslate_ascii c (h c hc)),
      squashAux_eq_self s.data (fun c hc => asciiWordChar_pyWordChar c (h c hc))]

/-- Witness for C5 (amended) at concrete inputs: applies the theorem at
`"a b"` and at `"abc"`, discharging the ASCII-cleanliness hypothesis. -/
theorem c5_normalize_word_chars_only_witness :
    (∀ c ∈ (normalize "a b").data, pyWordChar c = true) ∧ normalize "abc" = "abc" :=
  ⟨c5_normalize_word_chars_only.1 "a b", c5_normalize_word_chars_only.2 "abc" (by decide)⟩

/-- Claim C6: `normalize` is idempotent — `normalize (normalize x) =
normalize x` for every string `x`. -/
theorem c6_normalize_idempotent (s : String) :
    normalize (normalize s) = normalize s := by
  unfold normalize
  show String.mk (squashAux false ((String.mk (squashAux false (s.data.map polishTranslate))).data.map polishTranslate)) = _
  have h1 : ∀ c ∈ squashAux false (s.data.map polishTranslate), polishTranslate c = c := by
    intro c hc
    rcases squashAux_subset (s.data.map polishTranslate) false c hc with h | h
    · rcases List.mem_map.mp h with ⟨a, _, ha⟩
      rw [← ha]
      exact polishTranslate_idem a
    · rw [h]; rfl
  have h2 : ∀ c ∈ squashAux false (s.data.map polishTranslate), pyWordChar c = true :=
    squashAux_mem (s.data.map polishTranslate) false
  rw [show (String.mk (squashAux false (s.data.map polishTranslate))).data
        = squashAux false (s.data.map polishTranslate) from rfl,
    map_polishTranslate_eq_self _ h1, squashAux_eq_self _ h2]

/-- Claim C7: the `match` of `move_files` classifies each of the 21 table
extensions into its category by case-sensitive exact match, and anything
else — including a different case such as `.JPG` — as unsorted (second
conjunct); a file classified as unsorted leaves the filesystem untouched and
performs no move or extraction event (third conjunct); a categorized file
(when `os.renames` does not hit an existing destination) is moved exactly to
the path chosen by `set_dest_path` applied to `os.path.join(path, category)`,
the normalized base name and the original extension (fourth conjunct); and
`set_dest_path` always places its result directly under the directory it is
given, so the destination lies under `<directory>/<category>/` (fifth
conjunct). -/
theorem c7_move_files_classification_and_moves :
    (classify ".jpeg" = Category.images ∧ classify ".png" = Category.images ∧
     classify ".jpg" = Category.images ∧ classify ".svg" = Category.images ∧
     classify ".avi" = Category.video ∧ classify ".mp4" = Category.video ∧
     classify ".mov" = Category.video ∧ classify ".mkv" = Category.video ∧
     classify ".doc" = Category.documents ∧ classify ".docx" = Category.documents ∧
     classify ".txt" = Category.documents ∧ classify ".pdf" = Category.documents ∧
     classify ".xlsx" = Category.documents ∧ classify ".pptx" = Category.documents ∧
     classify ".mp3" = Category.audio ∧ classify ".ogg" = Category.audio ∧
     classify ".wav" = Category.audio ∧ classify ".amr" = Category.audio ∧
     classify ".zip" = Category.archives ∧ classify ".gz" = Category.archives ∧
     classify ".tar" = Category.archives) ∧
    (∀ ext, ext ∉ knownExts → classify ext = Category.unsorted) ∧
    (∀ (path : String) (st : SortState) (fname : String),
      classify (pySplitext fname).2 = Category.unsorted →
      (processFile path st fname).fs = st.fs ∧ (processFile path st fname).events = st.events) ∧
    (∀ (path : String) (st : SortState) (fname : String),
      classify (pySplitext fname).2 ≠ Category.unsorted →
      fsContains st.fs (set_dest_path (fun p => fsContains st.fs p)
        (osJoin path (catName (classify (pySplitext fname).2)))
        (normalize (pySplitext fname).1) (pySplitext fname).2) = false →
      (processFile path st fname).fs =
        st.fs.erase (osJoin path fname) ++
          [set_dest_path (fun p => fsContains st.fs p)
            (osJoin path (catName (classify (pySplitext fname).2)))
            (normalize (pySplitext fname).1) (pySplitext fname).2]) ∧
    (∀ (ex : String → Bool) (p n e : String), ∃ m, set_dest_path ex p n e = osJoin p m) :=
  ⟨by decide, classify_default, processFile_unsorted, processFile_moved, set_dest_path_under⟩

/-- Witness for C7 at concrete inputs: `.JPG` (wrong case) is unsorted; an
unsorted file `x.xyz` leaves the filesystem unchanged; `a.jpg` is moved to
`d/images/a.jpg`. -/
theorem c7_move_files_classification_and_moves_witness :
    classify ".JPG" = Category.unsorted ∧
    (processFile "d" (SortState.mk ["d/x.xyz"] (fun _ => []) (fun _ => []) [] []) "x.xyz").fs =
      ["d/x.xyz"] ∧
    (processFile "d" (SortState.mk ["d/a.jpg"] (fun _ => []) (fun _ => []) [] []) "a.jpg").fs =
      ["d/images/a.jpg"] := by
  refine ⟨c7_move_files_classification_and_moves.2.1 ".JPG" (by decide),
    (c7_move_files_classification_and_moves.2.2.1 "d" _ "x.xyz" (by decide)).1, ?_⟩
  have h := c7_move_files_classification_and_moves.2.2.2.1 "d"
    (SortState.mk ["d/a.jpg"] (fun _ => []) (fun _ => []) [] []) "a.jpg" (by decide) (by decide)
  rw [h]
  decide

/-- Claim C8, counterexample: for `notes.zip` the recorded event trace is
extraction first, then the move — `shutil.unpack_archive` is called inside
the `match` arm (source lines 165-168), before the `os.renames` on line 176
— so the extraction does not happen "immediately after the move" as the
claim states (the trace is not move-then-extract). -/
theorem c8_extraction_precedes_move :
    (move_files ["d/notes.zip"] "d" ["notes.zip"]).events =
      [FsEvent.unpack "d/notes.zip" "d/archives/notes",
       FsEvent.renames "d/notes.zip" "d/archives/notes.zip"] ∧
    (move_files ["d/notes.zip"] "d" ["notes.zip"]).events ≠
      [FsEvent.renames "d/notes.zip" "d/archives/notes.zip",
       FsEvent.unpack "d/notes.zip" "d/archives/notes"] :=
  ⟨rfl, by decide⟩

/-- Claim C8 (amended): a file classified as an archive is extracted from
its original location into the subdirectory of the archives directory named
after the normalized base name without extension, immediately BEFORE the
move (not after); the archive itself is then moved to the destination chosen
by the Collision Resolver — so `notes.zip` yields `archives/notes.zip` moved
plus the `archives/notes` extraction target. -/
theorem c8_archive_extracted_before_move (path : String) (st : SortState) (fname : String)
    (ha : classify (pySplitext fname).2 = Category.archives)
    (hc : fsContains st.fs (set_dest_path (fun p => fsContains st.fs p)
        (osJoin path (catName Category.archives))
        (normalize (pySplitext fname).1) (pySplitext fname).2) = false) :
    (processFile path st fname).events =
      st.events ++
        [FsEvent.unpack (osJoin path fname)
           (osJoin (osJoin path (catName Category.archives)) (normalize (pySplitext fname).1)),
         FsEvent.renames (osJoin path fname)
           (set_dest_path (fun p => fsContains st.fs p)
             (osJoin path (catName Category.archives))
             (normalize (pySplitext fname).1) (pySplitext fname).2)] := by
  simp [processFile, ha, hc]

/-- Witness for C8 (amended): the event trace for `notes.zip` in directory
`d` is the extraction into `d/archives/notes` followed by the move to
`d/archives/notes.zip`. -/
theorem c8_archive_extracted_before_move_witness :
    (processFile "d" (SortState.mk ["d/notes.zip"] (fun _ => []) (fun _ => []) [] [])
        "notes.zip").events =
      [FsEvent.unpack "d/notes.zip" "d/archives/notes",
       FsEvent.renames "d/notes.zip" "d/archives/notes.zip"] := by
  have h := c8_archive_extracted_before_move "d"
    (SortState.mk ["d/notes.zip"] (fun _ => []) (fun _ => []) [] []) "notes.zip"
    (by decide) (by decide)
  rw [h]
  decide

/-- Claim C9, counterexample: the record kept for the moved file `a.jpg` is
`"d/images/a.jpg has moved to: d/images/a.jpg"` — the source field is
`os.path.join(path, file_type, file.name)` (source line 190), which prefixes
the category directory and is NOT the actual source path `d/a.jpg`; and for
an unsorted file `x.xyz` the record is `"d/unsorted/x.xyz"` (source line
187), a path under a nonexistent `unsorted` directory, not the file's
original path `d/x.xyz`. -/
theorem c9_record_paths_not_actual_source :
    (move_files ["d/a.jpg"] "d" ["a.jpg"]).pathsRec Category.images =
      ["d/images/a.jpg has moved to: d/images/a.jpg"] ∧
    "d/images/a.jpg has moved to: d/images/a.jpg" ≠ "d/a.jpg has moved to: d/images/a.jpg" ∧
    (move_files [] "d" ["x.xyz"]).pathsRec Category.unsorted = ["d/unsorted/x.xyz"] ∧
    "d/unsorted/x.xyz" ≠ "d/x.xyz" :=
  ⟨rfl, by decide, rfl, by decide⟩

/-- Claim C9 (amended): per category the File Sorter accumulates the set of
distinct extensions encountered (leading dot included) and, for each moved
file, the record `"<path>/<category>/<original name> has moved to: <dest>"`
— the source field prefixed with the category directory rather than the
actual source path — while each unsorted file is recorded as
`<path>/unsorted/<original name>` rather than its original path. -/
theorem c9_record_shape :
    (∀ (path : String) (st : SortState) (fname : String),
      classify (pySplitext fname).2 = Category.unsorted →
      (processFile path st fname).pathsRec Category.unsorted =
        st.pathsRec Category.unsorted ++ [osJoin (osJoin path "unsorted") fname] ∧
      (processFile path st fname).extensions Category.unsorted =
        (if (pySplitext fname).2 ∈ st.extensions Category.unsorted then
          st.extensions Category.unsorted
         else st.extensions Category.unsorted ++ [(pySplitext fname).2])) ∧
    (∀ (path : String) (st : SortState) (fname : String),
      classify (pySplitext fname).2 ≠ Category.unsorted →
      fsContains st.fs (set_dest_path (fun p => fsContains st.fs p)
        (osJoin path (catName (classify (pySplitext fname).2)))
        (normalize (pySplitext fname).1) (pySplitext fname).2) = false →
      (processFile path st fname).pathsRec (classify (pySplitext fname).2) =
        st.pathsRec (classify (pySplitext fname).2) ++
          [osJoin (osJoin path (catName (classify (pySplitext fname).2))) fname ++
            " has moved to: " ++
            set_dest_path (fun p => fsContains st.fs p)
              (osJoin path (catName (classify (pySplitext fname).2)))
              (normalize (pySplitext fname).1) (pySplitext fname).2] ∧
      (processFile path st fname).extensions (classify (pySplitext fname).2) =
        (if (pySplitext fname).2 ∈ st.extensions (classify (pySplitext fname).2) then
          st.extensions (classify (pySplitext fname).2)
         else st.extensions (classify (pySplitext fname).2) ++ [(pySplitext fname).2])) :=
  ⟨processFile_unsorted_records, processFile_moved_records⟩

/-- Witness for C9 (amended) at concrete inputs: the unsorted record for
`x.xyz` and the move record for `a.jpg`. -/
theorem c9_record_shape_witness :
    (processFile "d" (SortState.mk [] (fun _ => []) (fun _ => []) [] []) "x.xyz").pathsRec
      Category.unsorted = ["d/unsorted/x.xyz"] ∧
    (processFile "d" (SortState.mk ["d/a.jpg"] (fun _ => []) (fun _ => []) [] []) "a.jpg").pathsRec
      (classify (pySplitext "a.jpg").2) = ["d/images/a.jpg has moved to: d/images/a.jpg"] := by
  constructor
  · have h := (c9_record_shape.1 "d" (SortState.mk [] (fun _ => []) (fun _ => []) [] [])
      "x.xyz" (by decide)).1
    rw [h]
    decide
  · have h := (c9_record_shape.2 "d" (SortState.mk ["d/a.jpg"] (fun _ => []) (fun _ => []) [] [])
      "a.jpg" (by decide) (by decide)).1
    rw [h]
    decide

/-- Claim C10: with exactly one command-line argument, `get_path` accepts
iff `os.path.exists(os.path.dirname(arg))` and `os.path.isdir(arg)` both
hold (first conjunct); consequently an argument containing no path separator
has dirname `""`, which never exists, so it is rejected with the usage
message and a fatal exit even when it names an existing directory — the
`isdir` oracle below answers true for everything (second conjunct). -/
theorem c10_get_path_dirname_check :
    (∀ (prog p : String) (fe fid : String → Bool),
      get_path [prog, p] fe fid = Except.ok p ↔
        (os_path_exists fe (os_path_dirname p) && fid p) = true) ∧
    (∀ (prog p : String) (fe fid : String → Bool),
      (∀ c ∈ p.data, c ≠ '/') →
      get_path [prog, p] fe fid =
        Except.error (p ++ " is not a proper folder path.\n" ++
          ("Stars program with command like: " ++ prog ++
            " /user/folder_to_sort/ (path to folder you want to sort)."))) := by
  constructor
  · intro prog p fe fid
    cases hcond : os_path_exists fe (os_path_dirname p) && fid p <;>
      simp [get_path, hcond]
  · intro prog p fe fid h
    have hd : os_path_dirname p = "" := os_path_dirname_no_sep p h
    simp [get_path, hd, os_path_exists]

/-- Witness for C10: the bare name `mydir` is rejected even though the
`isdir` oracle answers true for it. -/
theorem c10_get_path_dirname_check_witness :
    get_path ["sort.py", "mydir"] (fun _ => true) (fun _ => true) =
      Except.error ("mydir" ++ " is not a proper folder path.\n" ++
        ("Stars program with command like: " ++ "sort.py" ++
          " /user/folder_to_sort/ (path to folder you want to sort).")) :=
  c10_get_path_dirname_check.2 "sort.py" "mydir" (fun _ => true) (fun _ => true) (by decide)

end SortInThreads
